import Mathlib

/-!
Verification of the zCore test-orchestration harness scripts.

Each definition is a shallow embedding of a function or code fragment from
the Python scripts under the repository (scripts/libc-tests.py,
scripts/unix-core-tests.py, scripts/core-tests.py,
scripts/baremetal-core-tests.py, scripts/baremetal-libc-test.py,
auto-test/local_core-test.py, libc-tests.py).  File I/O is abstracted as
lists of the lines read; the per-line processing, set operations and
exit-code decisions follow the Python source line by line.
-/

namespace ZCoreHarness

/-! ## Basic string helpers mirroring Python primitives -/

/-- Boolean prefix test on character lists: mirrors the Python
    str.startswith receiver check, with the pattern as first argument. -/
def isPref : List Char → List Char → Bool
  | [], _ => true
  | _ :: _, [] => false
  | a :: as, b :: bs => a = b && isPref as bs

/-- Python line.startswith(pat). -/
def pyStartsWith (s pat : String) : Bool := isPref pat.data s.data

/-- Boolean suffix test, via reversal. -/
def isSuf (suf l : List Char) : Bool := isPref suf.reverse l.reverse

/-- Python line.endswith(pat). -/
def pyEndsWith (s pat : String) : Bool := isSuf pat.data s.data

/-- Substring containment on character lists: true when pat occurs
    contiguously in l.  Mirrors the Python test pat in l. -/
def hasSub (pat : List Char) : List Char → Bool
  | [] => isPref pat []
  | c :: cs => isPref pat (c :: cs) || hasSub pat cs

/-- Python pat in s (substring containment on strings). -/
def pyContains (s pat : String) : Bool := hasSub pat.data s.data

/-- Python s[n:] (slicing counts code points, as Lean List.drop does). -/
def pyDrop (n : Nat) (s : String) : String := String.mk (s.data.drop n)

/-- Python s.split(sep)[0] for a single-space separator: the characters
    of s up to the first space (the whole of s when it has no space). -/
def pyFirstToken (s : String) : String :=
  String.mk (s.data.takeWhile (fun c => c ≠ ' '))

/-- Python s.strip(): remove leading and trailing whitespace. -/
def pyStrip (s : String) : String :=
  String.mk (((s.data.dropWhile Char.isWhitespace).reverse.dropWhile
    Char.isWhitespace).reverse)

/-- Python s.replace(chr, empty string) for a single character. -/
def removeChar (c : Char) (s : String) : String :=
  String.mk (s.data.filter (fun d => d ≠ c))

/-! ## CaseSource: manifests loaded as stripped-line sets

    From scripts/unix-core-tests.py lines 37-41 and
    scripts/baremetal-core-tests.py lines 36-40:
    set([case.strip() for case in tcf.readlines()]) for each file,
    then check_case = all_case - exception_case. -/

/-- The set of stripped case identifiers of a manifest given as its list
    of raw lines. -/
def loadCases (lines : List String) : Finset String :=
  (lines.map pyStrip).toFinset

/-- The effective run set: all-cases manifest minus exceptions manifest. -/
def check_case (allLines excLines : List String) : Finset String :=
  loadCases allLines \ loadCases excLines

/-! ## Combined test filter built from a single manifest

    From scripts/core-tests.py lines 33-37. -/

/-- Python sep.join for a comma separator. -/
def joinComma : List String → String
  | [] => ""
  | [s] => s
  | s :: t :: rest => s ++ "," ++ joinComma (t :: rest)

/-- The lines of the manifest not starting with the negation marker. -/
def positiveCases (lines : List String) : List String :=
  lines.filter (fun l => !(pyStartsWith l "-"))

/-- The lines starting with the negation marker, with that marker
    removed (Python line[1:]). -/
def negativeCases (lines : List String) : List String :=
  (lines.filter (fun l => pyStartsWith l "-")).map (pyDrop 1)

/-- The combined gtest filter string of scripts/core-tests.py line 37:
    comma-join of positives, then a literal ",-" and the comma-join of
    negatives when any negatives exist, with newlines removed. -/
def test_filter (lines : List String) : String :=
  removeChar '\n'
    (joinComma (positiveCases lines) ++
      (if (negativeCases lines).length > 0 then
        ",-" ++ joinComma (negativeCases lines)
      else ""))

/-! ## OutputClassifier

    From scripts/core-tests.py lines 52-61 (the identical fragment is in
    scripts/unix-core-tests.py lines 59-69 and, with an extra failed_case
    set, scripts/baremetal-core-tests.py lines 60-70). -/

/-- Closed character range test by code point, for the regex character
    classes of the ANSI escape pattern. -/
def inRange (lo hi c : Char) : Bool := lo.toNat ≤ c.toNat && c.toNat ≤ hi.toNat

/-- Greedy match of the regex ESC, one char of the class at-to-underscore,
    any chars of the class zero-to-questionmark, any chars of the class
    space-to-slash, one final char of the class at-to-tilde, at the head
    of the character list (the ansi_escape pattern of the scripts);
    returns the characters after the match.  The three trailing character
    classes are pairwise disjoint code-point ranges, so the greedy match
    equals the regex-engine match and needs no backtracking. -/
def matchAnsi : List Char → Option (List Char)
  | c0 :: c1 :: rest =>
    if c0 = '\x1B' && inRange '@' '_' c1 then
      match (rest.dropWhile (inRange '0' '?')).dropWhile (inRange ' ' '/') with
      | f :: r3 => if inRange '@' '~' f then some r3 else none
      | [] => none
    else none
  | _ => none

/-- Fuel-indexed worker for ANSI stripping: delete every match of the
    escape pattern, scanning left to right as re.sub does.  Each step
    consumes at least one character, so fuel equal to the input length
    always suffices and the fuel-exhausted arm is never reached. -/
def stripAux : Nat → List Char → List Char
  | _, [] => []
  | 0, l => l
  | n + 1, c :: cs =>
    match matchAnsi (c :: cs) with
    | some rest => stripAux n rest
    | none => c :: stripAux n cs

/-- Python ansi_escape.sub(empty string, line). -/
def stripAnsi (s : String) : String := String.mk (stripAux s.data.length s.data)

/-- The gtest success marker of the scripts: a bracket, seven spaces,
    OK, one space, a bracket (12 characters). -/
def okMarker : String := "[       OK ]"

/-- The gtest failure marker of the scripts (12 characters). -/
def failMarker : String := "[  FAILED  ]"

/-- The case key the code computes for a success line:
    Python line[13:].split(the space character)[0]. -/
def caseKey (line : String) : String := pyFirstToken (pyDrop 13 line)

/-- State threaded through the classification loop: the passed and
    failed line buffers (Python list += str extends by characters, so
    these are character lists) and the set of passed case keys. -/
structure ClassifyState where
  passed : List Char
  failed : List Char
  passed_case : Finset String
  deriving DecidableEq

/-- One iteration of the classification loop, applied to an
    already-stripped line: the if/elif of scripts/core-tests.py
    lines 57-61. -/
def classifyStripped (st : ClassifyState) (line : String) : ClassifyState :=
  if pyStartsWith line okMarker then
    { st with passed := st.passed ++ line.data,
              passed_case := insert (caseKey line) st.passed_case }
  else if pyStartsWith line failMarker && pyEndsWith line ")\n" then
    { st with failed := st.failed ++ line.data }
  else st

/-- One iteration of the classification loop on a raw line: strip ANSI
    escapes, then match (line 56 rebinds the loop variable to the
    stripped line before the marker tests). -/
def classifyLine (st : ClassifyState) (raw : String) : ClassifyState :=
  classifyStripped st (stripAnsi raw)

/-- The classification of a whole log, given as its list of raw lines. -/
def classify (lines : List String) : ClassifyState :=
  lines.foldl classifyLine { passed := [], failed := [], passed_case := ∅ }

/-- A stripped line takes the success branch. -/
def okRule (line : String) : Bool := pyStartsWith line okMarker

/-- A stripped line takes the failure branch: not the success branch
    (elif), starts with the failure marker and ends with the
    closing-parenthesis-newline suffix. -/
def failRule (line : String) : Bool :=
  !pyStartsWith line okMarker &&
    (pyStartsWith line failMarker && pyEndsWith line ")\n")

/-- The case key as claim C5 words it: of the remainder of the line
    after the 12-character success marker, the first whitespace-delimited
    token.  Stated from the claim, for comparison with caseKey, which is
    what the code computes. -/
def specCaseKey (line : String) : String :=
  String.mk (((line.data.drop 12).dropWhile Char.isWhitespace).takeWhile
    (fun c => !c.isWhitespace))

/-! ## ResultAggregator exit codes -/

/-- Exit decision of scripts/libc-tests.py lines 66-74: exit(1) when
    check_failed = (failed | timeout) - allow_failed is nonempty, normal
    termination (exit code 0) otherwise. -/
def libcTestsExitCode (failed timeout allow_failed : Finset String) : Nat :=
  if (failed ∪ timeout) \ allow_failed = ∅ then 0 else 1

/-- Exit decision of scripts/unix-core-tests.py lines 77-83: exit(1)
    exactly when the failed line buffer parsed from the log is nonempty;
    the not_passed set computed at line 76 is not consulted. -/
def unixCoreExitCode (logLines : List String) : Nat :=
  if (classify logLines).failed = [] then 0 else 1

/-- The not_passed set computed, and then never used, at line 76 of
    scripts/unix-core-tests.py: check_case - passed_case. -/
def not_passed (allLines excLines logLines : List String) : Finset String :=
  check_case allLines excLines \ (classify logLines).passed_case

/-- Exit decision of scripts/baremetal-libc-test.py lines 102-105:
    sys.exit(-1) when more than three cases failed, sys.exit(0)
    otherwise. -/
def baremetalLibcExitCode (failed : Finset String) : Int :=
  if 3 < failed.card then -1 else 0

/-- Derived set named by claim C1: unexpectedFailures =
    (failed union timedOut) minus allowList.  Stated from the claim. -/
def unexpectedFailures (failed timedOut allowList : Finset String) :
    Finset String :=
  (failed ∪ timedOut) \ allowList

/-- Derived set named by claim C1: missingPasses = expectedPasses minus
    passed.  Stated from the claim. -/
def missingPasses (expectedPasses passed : Finset String) : Finset String :=
  expectedPasses \ passed

/-! ## ConfigMutator: the rboot.conf rewrite of auto-test/local_core-test.py -/

/-- Python s.split on a colon separator, on character lists; like the
    Python method it returns one (possibly empty) segment more than the
    number of separators. -/
def splitOnColon : List Char → List (List Char)
  | [] => [[]]
  | c :: cs =>
    let r := splitOnColon cs
    if c = ':' then [] :: r
    else
      match r with
      | h :: t => (c :: h) :: t
      | [] => [[c]]

/-- Python line.split(colon). -/
def splitColon (s : String) : List String := (splitOnColon s.data).map String.mk

/-- Python single-character containment test chr in s. -/
def containsChar (s : String) (c : Char) : Bool := s.data.contains c

/-- The cmdline rewrite of auto-test/local_core-test.py lines 72-78:
    split the line on colons, replace the segment at Python index
    len(l)-2 (which wraps to the only segment when the split has a
    single piece) with the case name, pop the last segment, and print
    every remaining segment followed by a colon.  The trailing newline
    travels with the popped last segment, so the rewritten line ends in
    a colon with no newline. -/
def rewriteCmdline (caseName line : String) : String :=
  let l := splitColon line
  let idx := if 2 ≤ l.length then l.length - 2 else l.length - 1
  String.join (((l.set idx caseName).dropLast).map (fun s => s ++ ":"))

/-- One line of the fileinput inplace loop at lines 66-79: a line
    containing a hash character is dropped, then a line containing a
    space is dropped, then a line starting with cmdline is rewritten,
    and every other line is printed back unchanged. -/
def mutateLine (caseName line : String) : List String :=
  if containsChar line '#' then []
  else if containsChar line ' ' then []
  else if pyStartsWith line "cmdline" then [rewriteCmdline caseName line]
  else [line]

/-- The whole in-place rewrite of the configuration template. -/
def mutateConfig (caseName : String) (lines : List String) : List String :=
  lines.flatMap (mutateLine caseName)

/-- A line survives the deletion tests of the rewrite loop. -/
def keepLine (line : String) : Bool :=
  !containsChar line '#' && !containsChar line ' '

/-- The error class required by claim C4. -/
inductive ConfigError where
  | configFormatError
  deriving DecidableEq

/-- Modelled from the spec: section 4.2 requires apply to fail with
    ConfigFormatError when no line carries the cmdline marker instead of
    completing silently; the repository has no such error path.  Stated
    from the spec only to compare that required behavior with
    mutateConfig, the mutation the code actually performs. -/
def mutateConfigSpec (caseName : String) (lines : List String) :
    Except ConfigError (List String) :=
  if lines.any (fun l => pyStartsWith l "cmdline") then
    Except.ok (mutateConfig caseName lines)
  else Except.error ConfigError.configFormatError

/-! ## PatternWatcher, modelled from the spec

    The expect call of scripts/core-tests.py line 43 and
    scripts/unix-core-testone.py line 21 races the pattern list
    finished!, panicked, EOF, TIMEOUT; the matching itself is external
    library code (pexpect), so its semantics is modelled from spec
    sections 4.4 and 5. -/

/-- The four terminal outcomes of the watcher. -/
inductive Outcome where
  | finished
  | panicked
  | streamClosed
  | deadlineExceeded
  deriving DecidableEq

/-- Modelled from the spec: section 4.4 tests each line in priority
    order, the success marker before the failure marker, the first
    satisfied condition winning. -/
def checkLine (line : String) : Option Outcome :=
  if pyContains line "finished!" then some Outcome.finished
  else if pyContains line "panicked" then some Outcome.panicked
  else none

/-- Modelled from the spec: sections 4.4 and 5 describe the watcher as
    consuming the stream line by line with the deadline checked only
    between line reads.  The stream is a list of arrival-time/line
    pairs and closes (EOF) when the list ends. -/
def watch (deadline : Nat) : List (Nat × String) → Outcome
  | [] => Outcome.streamClosed
  | (t, line) :: rest =>
    if deadline < t then Outcome.deadlineExceeded
    else
      match checkLine line with
      | some o => o
      | none => watch deadline rest

/-! ## Stream-close recording in libc-tests.py and local_core-test.py -/

/-- The three outcomes of the expect call at line 43 of libc-tests.py,
    whose pattern list is EOF, panicked, TIMEOUT. -/
inductive LibcOutcome where
  | eofReached
  | panickedHit
  | timedOut
  deriving DecidableEq

/-- Modelled from the spec: the stream watching behind libc-tests.py
    line 43; the marker panicked is matched against each line arriving
    within the deadline, and exhausting the stream is EOF. -/
def libcWatch (deadline : Nat) : List (Nat × String) → LibcOutcome
  | [] => LibcOutcome.eofReached
  | (t, line) :: rest =>
    if deadline < t then LibcOutcome.timedOut
    else if pyContains line "panicked" then LibcOutcome.panickedHit
    else libcWatch deadline rest

/-- The result line appended for each expect index by libc-tests.py
    lines 44-52. -/
def libcRecord (name : String) : LibcOutcome → String
  | LibcOutcome.eofReached => name ++ " successed\n"
  | LibcOutcome.panickedHit => name ++ " failed\n"
  | LibcOutcome.timedOut => name ++ " 10s_timeout\n"

/-- The three outcomes of the expect call at line 85 of
    auto-test/local_core-test.py (pattern list: finished!, EOF,
    TIMEOUT). -/
inductive LocalOutcome where
  | finishedHit
  | eofReached
  | timedOut
  deriving DecidableEq

/-- Modelled from the spec: the stream watching behind
    local_core-test.py line 85, with finished! as the only marker. -/
def localWatch (deadline : Nat) : List (Nat × String) → LocalOutcome
  | [] => LocalOutcome.eofReached
  | (t, line) :: rest =>
    if deadline < t then LocalOutcome.timedOut
    else if pyContains line "finished!" then LocalOutcome.finishedHit
    else localWatch deadline rest

/-- The result line appended for each expect index by
    local_core-test.py lines 86-94. -/
def localRecord (name : String) : LocalOutcome → String
  | LocalOutcome.finishedHit => name ++ ": successed\n"
  | LocalOutcome.eofReached => name ++ ": EOF\n"
  | LocalOutcome.timedOut => name ++ ": TIMEOUT\n"

/-! ## The libos enumeration loop of scripts/libc-tests.py -/

/-- Result of one subprocess.run invocation: normal exit,
    CalledProcessError, or TimeoutExpired. -/
inductive RunResult where
  | okExit
  | calledProcessError
  | timeoutExpired
  deriving DecidableEq

/-- State of the enumeration loop of scripts/libc-tests.py lines 31-48:
    the three outcome sets, plus the list of paths a session was
    actually started for (the paths reaching subprocess.run). -/
structure LibcTestsState where
  passed : Finset String
  failed : Finset String
  timeout : Finset String
  launched : List String
  deriving DecidableEq

/-- One iteration of the glob loop: strip the nine-character rootfs
    prefix (Python path[len of prefix :]), skip paths ending in
    -static.exe before any launch, otherwise launch and record the path
    in the set matching the run result. -/
def libcTestsStep (runOutcome : String → RunResult)
    (st : LibcTestsState) (rawPath : String) : LibcTestsState :=
  let path := pyDrop 9 rawPath
  if pyEndsWith path "-static.exe" then st
  else
    match runOutcome path with
    | RunResult.okExit =>
        { st with passed := insert path st.passed,
                  launched := st.launched ++ [path] }
    | RunResult.calledProcessError =>
        { st with failed := insert path st.failed,
                  launched := st.launched ++ [path] }
    | RunResult.timeoutExpired =>
        { st with timeout := insert path st.timeout,
                  launched := st.launched ++ [path] }

/-- The initial loop state: three empty sets, nothing launched. -/
def libcTestsInit : LibcTestsState :=
  { passed := ∅, failed := ∅, timeout := ∅, launched := [] }

/-- The whole enumeration loop, from empty sets. -/
def libcTestsRun (runOutcome : String → RunResult)
    (paths : List String) : LibcTestsState :=
  paths.foldl (libcTestsStep runOutcome) libcTestsInit

/-- No string ending in -static.exe occurs anywhere in the loop state. -/
def NoStatic (st : LibcTestsState) : Prop :=
  ∀ q : String, pyEndsWith q "-static.exe" = true →
    q ∉ st.passed ∧ q ∉ st.failed ∧ q ∉ st.timeout ∧ q ∉ st.launched

end ZCoreHarness

namespace ZCoreHarness

/-! ## Theorems for claims C2 and C10 -/

theorem loadCases_perm {l1 l2 : List String} (h : l1.Perm l2) :
    loadCases l1 = loadCases l2 :=
  List.toFinset_eq_of_perm _ _ (h.map pyStrip)

theorem mem_loadCases {s : String} {l : List String} :
    s ∈ loadCases l ↔ ∃ x ∈ l, pyStrip x = s := by
  simp [loadCases, List.mem_toFinset, List.mem_map]

/-- Claim C2: for every pair of manifest files, the effective run set is
    the set difference of the stripped case identifiers (all minus
    exceptions); it is invariant under reordering of either file and
    under duplicate entries in either file. -/
theorem check_case_is_set_difference
    (allL excL allL2 excL2 : List String) (x y : String)
    (hPermAll : allL.Perm allL2) (hPermExc : excL.Perm excL2)
    (hx : x ∈ allL) (hy : y ∈ excL) :
    (∀ s, s ∈ check_case allL excL ↔
        ((∃ l ∈ allL, pyStrip l = s) ∧ ¬ ∃ l ∈ excL, pyStrip l = s)) ∧
    check_case allL2 excL2 = check_case allL excL ∧
    check_case (x :: allL) excL = check_case allL excL ∧
    check_case allL (y :: excL) = check_case allL excL := by
  refine ⟨?_, ?_, ?_, ?_⟩
  · intro s
    simp [check_case, Finset.mem_sdiff, mem_loadCases]
  · simp [check_case, loadCases_perm hPermAll, loadCases_perm hPermExc]
  · have : loadCases (x :: allL) = loadCases allL := by
      simp [loadCases, List.toFinset_cons]
      exact ⟨x, hx, rfl⟩
    simp [check_case, this]
  · have : loadCases (y :: excL) = loadCases excL := by
      simp [loadCases, List.toFinset_cons]
      exact ⟨y, hy, rfl⟩
    simp [check_case, this]

/-- Witness for C2 at concrete manifests with reordering and duplicates. -/
theorem check_case_is_set_difference_witness :
    check_case ["b", "a"] ["b"] = check_case ["a", "b"] ["b"] ∧
    check_case ("a" :: ["a", "b"]) ["b"] = check_case ["a", "b"] ["b"] := by
  have h := check_case_is_set_difference ["a", "b"] ["b"] ["b", "a"] ["b"]
    "a" "b" (by decide) (List.Perm.refl _) (by decide) (by decide)
  exact ⟨h.2.1.symm, h.2.2.1⟩

/-- Claim C10: when a manifest has at least two negated lines, the
    negation marker is prepended (via the literal ",-") only before the
    first negated case; each later negated case follows a bare comma in
    the combined filter string. -/
theorem test_filter_single_negation_marker
    (lines : List String) (n1 n2 : String) (rest : List String)
    (hneg : negativeCases lines = n1 :: n2 :: rest) :
    test_filter lines =
      removeChar '\n'
        (joinComma (positiveCases lines) ++
          (",-" ++ (n1 ++ "," ++ joinComma (n2 :: rest)))) := by
  simp [test_filter, hneg, joinComma]

/-- Witness for C10: manifest with two negated cases produces the filter
    string with a single minus sign before the first negated case only. -/
theorem test_filter_single_negation_marker_witness :
    negativeCases ["a\n", "-b\n", "-c\n"] = "b\n" :: "c\n" :: [] ∧
    test_filter ["a\n", "-b\n", "-c\n"] =
      removeChar '\n'
        (joinComma (positiveCases ["a\n", "-b\n", "-c\n"]) ++
          (",-" ++ ("b\n" ++ "," ++ joinComma ("c\n" :: [])))) :=
  ⟨by decide,
   test_filter_single_negation_marker ["a\n", "-b\n", "-c\n"] "b\n" "c\n" []
     (by decide)⟩

/-! ## Characterization of the classification loop -/

theorem classify_foldl_spec (lines : List String) (st : ClassifyState) :
    (lines.foldl classifyLine st).passed
        = st.passed ++ ((lines.map stripAnsi).filter okRule).flatMap String.data ∧
    (lines.foldl classifyLine st).failed
        = st.failed ++ ((lines.map stripAnsi).filter failRule).flatMap String.data ∧
    (lines.foldl classifyLine st).passed_case
        = st.passed_case ∪
            (((lines.map stripAnsi).filter okRule).map caseKey).toFinset := by
  induction lines generalizing st with
  | nil => simp
  | cons raw rest ih =>
    cases hok : pyStartsWith (stripAnsi raw) okMarker with
    | true =>
      have hcl : classifyLine st raw =
          { st with passed := st.passed ++ (stripAnsi raw).data,
                    passed_case := insert (caseKey (stripAnsi raw))
                      st.passed_case } := by
        simp [classifyLine, classifyStripped, hok]
      rcases ih (classifyLine st raw) with ⟨hp, hf, hc⟩
      have hfr : failRule (stripAnsi raw) = false := by simp [failRule, hok]
      refine ⟨?_, ?_, ?_⟩
      · rw [List.foldl_cons, hp, hcl]
        simp [List.filter_cons, okRule, hok, List.append_assoc]
      · rw [List.foldl_cons, hf, hcl]
        simp [List.filter_cons, hfr]
      · rw [List.foldl_cons, hc, hcl]
        simp [List.filter_cons, okRule, hok, List.toFinset_cons,
          Finset.insert_union, Finset.union_insert]
    | false =>
      have hor : okRule (stripAnsi raw) = false := by simp [okRule, hok]
      cases hfe : pyStartsWith (stripAnsi raw) failMarker &&
          pyEndsWith (stripAnsi raw) ")\n" with
      | true =>
        have hcl : classifyLine st raw =
            { st with failed := st.failed ++ (stripAnsi raw).data } := by
          simp [classifyLine, classifyStripped, hok, hfe]
        rcases ih (classifyLine st raw) with ⟨hp, hf, hc⟩
        have hfr : failRule (stripAnsi raw) = true := by
          simp [failRule, hok, hfe]
        refine ⟨?_, ?_, ?_⟩
        · rw [List.foldl_cons, hp, hcl]
          simp [List.filter_cons, hor]
        · rw [List.foldl_cons, hf, hcl]
          simp [List.filter_cons, hfr, List.append_assoc]
        · rw [List.foldl_cons, hc, hcl]
          simp [List.filter_cons, hor]
      | false =>
        have hcl : classifyLine st raw = st := by
          simp [classifyLine, classifyStripped, hok, hfe]
        rcases ih (classifyLine st raw) with ⟨hp, hf, hc⟩
        have hfr : failRule (stripAnsi raw) = false := by
          simp [failRule, hok, hfe]
        refine ⟨?_, ?_, ?_⟩
        · rw [List.foldl_cons, hp, hcl]
          simp [List.filter_cons, hor]
        · rw [List.foldl_cons, hf, hcl]
          simp [List.filter_cons, hfr]
        · rw [List.foldl_cons, hc, hcl]
          simp [List.filter_cons, hor]

/-- Claim C5 (amended): after control-sequence stripping, a line taking
    the success branch assigns Passed to the key computed as the
    characters of the line from index 13 up to the first space character
    (not general whitespace: a trailing newline is retained in the key
    when no space follows it); a line is recorded as Failed exactly when
    it does not take the success branch, begins with the failure marker
    and ends with the closing-parenthesis-newline suffix; every other
    line contributes nothing. -/
theorem classify_branch_rules (lines : List String) (k : String) :
    (k ∈ (classify lines).passed_case ↔
        ∃ l, l ∈ lines ∧ okRule (stripAnsi l) = true ∧
          caseKey (stripAnsi l) = k) ∧
    (classify lines).passed
        = ((lines.map stripAnsi).filter okRule).flatMap String.data ∧
    (classify lines).failed
        = ((lines.map stripAnsi).filter failRule).flatMap String.data := by
  rcases classify_foldl_spec lines
      { passed := [], failed := [], passed_case := ∅ } with ⟨hp, hf, hc⟩
  refine ⟨?_, hp, hf⟩
  rw [show (classify lines).passed_case
      = (List.foldl classifyLine
          { passed := [], failed := [], passed_case := ∅ } lines).passed_case
      from rfl, hc]
  simp only [Finset.empty_union, List.mem_toFinset, List.mem_map,
    List.mem_filter]
  constructor
  · rintro ⟨l, ⟨⟨raw, hraw, hstrip⟩, hokl⟩, hkey⟩
    exact ⟨raw, hraw, by rw [hstrip]; exact hokl, by rw [hstrip]; exact hkey⟩
  · rintro ⟨raw, hraw, hokl, hkey⟩
    exact ⟨stripAnsi raw, ⟨⟨raw, hraw, rfl⟩, hokl⟩, hkey⟩

/-- Counterexample to claim C5 as stated: on the success line with key
    foo and no text after the key, the code records the key together
    with its trailing newline, while the claim's key (the token of the
    remainder up to the first whitespace) is foo without the newline. -/
theorem classify_key_counterexample :
    (classify ["[       OK ] foo\n"]).passed_case =
        ({"foo\n"} : Finset String) ∧
    specCaseKey "[       OK ] foo\n" = "foo" ∧
    ("foo\n" : String) ≠ "foo" := by
  refine ⟨?_, by decide, by decide⟩
  decide

/-- Helper for claim C6: the classification fold depends on the lines
    only through their stripped forms. -/
theorem classify_foldl_congr (lines1 : List String) :
    ∀ (lines2 : List String) (st : ClassifyState),
      lines1.map stripAnsi = lines2.map stripAnsi →
      lines1.foldl classifyLine st = lines2.foldl classifyLine st := by
  induction lines1 with
  | nil =>
    intro lines2 st h
    cases lines2 with
    | nil => rfl
    | cons b bs => simp at h
  | cons a as ih =>
    intro lines2 st h
    cases lines2 with
    | nil => simp at h
    | cons b bs =>
      simp only [List.map_cons, List.cons.injEq] at h
      have hline : classifyLine st a = classifyLine st b := by
        rw [classifyLine, classifyLine, h.1]
      simp only [List.foldl_cons, hline]
      exact ih bs (classifyLine st b) h.2

/-- Claim C6: the classifier is a deterministic pure function of the raw
    log text, and since each line is stripped of ANSI control sequences
    before any marker matching, two logs that agree line by line after
    stripping (in particular, a log and the same log with ANSI escape
    sequences inserted) classify to identical results. -/
theorem classify_deterministic_and_strip_invariant
    (lines1 lines2 : List String)
    (h : lines1.map stripAnsi = lines2.map stripAnsi) :
    classify lines1 = classify lines1 ∧ classify lines1 = classify lines2 :=
  ⟨rfl, classify_foldl_congr lines1 lines2 _ h⟩

/-- Witness for C6: a log line colorized with a green ANSI sequence and
    a reset sequence classifies exactly as its plain counterpart. -/
theorem classify_strip_invariant_witness :
    classify ["\x1B[32m[       OK ] a (1 ms)\n\x1B[0m"] =
      classify ["[       OK ] a (1 ms)\n"] :=
  (classify_deterministic_and_strip_invariant
    ["\x1B[32m[       OK ] a (1 ms)\n\x1B[0m"]
    ["[       OK ] a (1 ms)\n"] (by decide)).2

/-! ## Theorems for claim C1 (exit codes) -/

/-- Counterexample to claim C1 as stated: scripts/unix-core-tests.py on
    an empty log with one baseline-expected case exits 0 although the
    missing-passes set is nonempty, and scripts/baremetal-libc-test.py
    with one failed case (an unexpected failure, no allow-list being
    subtracted) also exits 0. -/
theorem exit_code_counterexample :
    unixCoreExitCode [] = 0 ∧
    missingPasses (check_case ["c"] []) (classify []).passed_case
      = ({"c"} : Finset String) ∧
    ({"c"} : Finset String) ≠ (∅ : Finset String) ∧
    baremetalLibcExitCode {"a"} = 0 ∧
    unexpectedFailures {"a"} ∅ ∅ = ({"a"} : Finset String) ∧
    ({"a"} : Finset String) ≠ (∅ : Finset String) := by
  refine ⟨rfl, by decide, by decide, by decide, by decide, by decide⟩

/-- Claim C1 (amended): the exit contracts actually implemented are
    per-script.  scripts/libc-tests.py exits 0 exactly when the
    unexpected-failure set (failed union timeout, minus the allow-list)
    is empty, with no missing-passes check; scripts/unix-core-tests.py
    exits 0 exactly when no failure-marker line was parsed from the log,
    the computed not_passed set notwithstanding; and
    scripts/baremetal-libc-test.py exits 0 exactly when at most three
    cases failed. -/
theorem exit_code_contracts
    (failed timeout allow : Finset String) (logLines : List String) :
    (libcTestsExitCode failed timeout allow = 0 ↔
      unexpectedFailures failed timeout allow = ∅) ∧
    (unixCoreExitCode logLines = 0 ↔ (classify logLines).failed = []) ∧
    (baremetalLibcExitCode failed = 0 ↔ failed.card ≤ 3) := by
  refine ⟨?_, ?_, ?_⟩
  · rw [libcTestsExitCode, unexpectedFailures]
    split <;> simp_all
  · rw [unixCoreExitCode]
    split <;> simp_all
  · rw [baremetalLibcExitCode]
    split <;> rename_i h <;> simp <;> omega

/-! ## Theorems for claims C3 and C4 (configuration mutation) -/

theorem mutateConfig_eq_filter_map (caseName : String) (lines : List String) :
    mutateConfig caseName lines =
      (lines.filter keepLine).map
        (fun l => if pyStartsWith l "cmdline" then rewriteCmdline caseName l
                  else l) := by
  induction lines with
  | nil => rfl
  | cons a as ih =>
    cases h1 : containsChar a '#' with
    | true =>
      simp [mutateConfig, mutateLine, keepLine, List.filter_cons, h1,
        List.flatMap_cons] at ih ⊢
      exact ih
    | false =>
      cases h2 : containsChar a ' ' with
      | true =>
        simp [mutateConfig, mutateLine, keepLine, List.filter_cons, h1, h2,
          List.flatMap_cons] at ih ⊢
        exact ih
      | false =>
        cases h3 : pyStartsWith a "cmdline" with
        | true =>
          simp [mutateConfig, mutateLine, keepLine, List.filter_cons, h1, h2,
            h3, List.flatMap_cons] at ih ⊢
          exact ih
        | false =>
          simp [mutateConfig, mutateLine, keepLine, List.filter_cons, h1, h2,
            h3, List.flatMap_cons] at ih ⊢
          exact ih

/-- Counterexample to claim C3 as stated: a comment line of the
    template, and likewise a non-comment line containing a space, do
    not appear in the output of the mutation at all, let alone
    byte-for-byte unchanged. -/
theorem config_comment_deleted_counterexample :
    mutateConfig "x.y" ["# note\n", "a b\n", "cmdline=a:b:c\n"]
      = ["cmdline=a:x.y:"] ∧
    "# note\n" ∉ mutateConfig "x.y" ["# note\n", "a b\n", "cmdline=a:b:c\n"] ∧
    "a b\n" ∉ mutateConfig "x.y" ["# note\n", "a b\n", "cmdline=a:b:c\n"] := by
  decide

/-- Claim C3 (amended): the mutation deletes every line containing a
    hash character (comments) or a space, rewrites the lines starting
    with the cmdline marker, and passes every remaining line through
    byte-for-byte unchanged, preserving order. -/
theorem mutate_config_frame (caseName : String) (lines : List String) :
    mutateConfig caseName lines =
      (lines.filter keepLine).map
        (fun l => if pyStartsWith l "cmdline" then rewriteCmdline caseName l
                  else l) ∧
    ∀ l : String, keepLine l = true → pyStartsWith l "cmdline" = false →
      mutateLine caseName l = [l] := by
  refine ⟨mutateConfig_eq_filter_map caseName lines, ?_⟩
  intro l hk hc
  rw [keepLine] at hk
  rw [mutateLine, hc]
  rcases Bool.and_eq_true_iff.1 hk with ⟨hk1, hk2⟩
  simp at hk1 hk2
  simp [hk1, hk2]

/-- Witness for C3 at a concrete template: the blank line and the plain
    line survive unchanged, comment and space lines are deleted. -/
theorem mutate_config_frame_witness :
    mutateConfig "a.b" ["\n", "k=v\n", "# c\n", "cmdline=x:y:z\n"] =
      (["\n", "k=v\n", "# c\n", "cmdline=x:y:z\n"].filter keepLine).map
        (fun l => if pyStartsWith l "cmdline" then rewriteCmdline "a.b" l
                  else l) ∧
    mutateLine "a.b" "k=v\n" = ["k=v\n"] :=
  ⟨(mutate_config_frame "a.b" ["\n", "k=v\n", "# c\n", "cmdline=x:y:z\n"]).1,
   (mutate_config_frame "a.b" []).2 "k=v\n" (by decide) (by decide)⟩

/-- Counterexample to claim C4 as stated: on a template with no cmdline
    marker line, the mutation of the code completes silently and
    returns the template unchanged, while the behavior the claim
    requires (modelled from the spec in mutateConfigSpec) is a
    ConfigFormatError. -/
theorem config_marker_absent_counterexample :
    mutateConfig "x.y" ["foo\n"] = ["foo\n"] ∧
    mutateConfigSpec "x.y" ["foo\n"]
      = Except.error ConfigError.configFormatError :=
  ⟨by decide, rfl⟩

/-- Claim C4 (amended): when no line of the template starts with the
    cmdline marker, the mutation completes silently, returning the
    template with only the hash-or-space deletions applied and no
    cmdline rewrite, so the case launches against a stale configuration;
    no ConfigFormatError is raised (no such error path exists in the
    code, diverging from the spec-modelled behavior). -/
theorem mutate_config_marker_absent (caseName : String) (lines : List String)
    (h : ∀ l ∈ lines, pyStartsWith l "cmdline" = false) :
    mutateConfig caseName lines = lines.filter keepLine ∧
    mutateConfigSpec caseName lines
      = Except.error ConfigError.configFormatError := by
  constructor
  · rw [mutateConfig_eq_filter_map]
    have : ∀ l ∈ lines.filter keepLine,
        (if pyStartsWith l "cmdline" then rewriteCmdline caseName l else l)
          = l := by
      intro l hl
      rw [h l (List.mem_of_mem_filter hl)]
      simp
    rw [List.map_congr_left this]
    exact List.map_id _
  · rw [mutateConfigSpec, if_neg]
    simp only [List.any_eq_true, not_exists, not_and]
    intro l hl
    simp [h l hl]

/-- Witness for C4 at a concrete markerless template. -/
theorem mutate_config_marker_absent_witness :
    mutateConfig "x.y" ["bar\n", "# z\n"] =
      ["bar\n", "# z\n"].filter keepLine ∧
    mutateConfigSpec "x.y" ["bar\n", "# z\n"]
      = Except.error ConfigError.configFormatError :=
  mutate_config_marker_absent "x.y" ["bar\n", "# z\n"] (by decide)

/-! ## Theorems for claim C7 (watcher termination and priority) -/

/-- Claim C7: the watcher yields exactly one outcome per stream (never
    zero, never two), and the terminal conditions are tested in fixed
    priority order: on a line arriving within the deadline the success
    marker wins over everything, and the failure marker fires only when
    the success marker is absent, so the two never fire together for
    one line. -/
theorem watch_exactly_once_and_priority (deadline t : Nat) (line : String)
    (rest stream : List (Nat × String)) (ht : t ≤ deadline) :
    (∃! o : Outcome, watch deadline stream = o) ∧
    (pyContains line "finished!" = true →
      watch deadline ((t, line) :: rest) = Outcome.finished) ∧
    (pyContains line "finished!" = false →
      pyContains line "panicked" = true →
      watch deadline ((t, line) :: rest) = Outcome.panicked) := by
  refine ⟨⟨watch deadline stream, rfl, fun y hy => hy.symm⟩, ?_, ?_⟩
  · intro hfin
    simp [watch, Nat.not_lt.2 ht, checkLine, hfin]
  · intro hfin hpan
    simp [watch, Nat.not_lt.2 ht, checkLine, hfin, hpan]

/-- Witness for C7: a line containing both markers terminates the watch
    with the success outcome, and a line containing only the failure
    marker terminates it with the failure outcome. -/
theorem watch_exactly_once_and_priority_witness :
    watch 10 [(1, "both finished! and panicked")] = Outcome.finished ∧
    watch 10 [(1, "it panicked")] = Outcome.panicked :=
  ⟨(watch_exactly_once_and_priority 10 1 "both finished! and panicked" [] []
      (by decide)).2.1 (by decide),
   (watch_exactly_once_and_priority 10 1 "it panicked" [] []
      (by decide)).2.2 (by decide) (by decide)⟩

/-! ## Theorems for claim C8 (stream closes before any marker) -/

/-- Counterexample to claim C8 as stated: a session stream that closes
    with no marker observed is recorded by libc-tests.py as a success
    record (EOF is the first pattern in its expect list and maps to the
    successed line), and by local_core-test.py as the distinct EOF
    record; neither script records Failed. -/
theorem eof_record_counterexample :
    libcRecord "1 a.exe" (libcWatch 10 []) = "1 a.exe successed\n" ∧
    localRecord "a.b" (localWatch 10 []) = "a.b: EOF\n" := by
  exact ⟨rfl, rfl⟩

/-- Claim C8 (amended): for every case whose session stream closes
    before any marker line is observed within the deadline, libc-tests.py
    records the successed line (its expect list places EOF first and
    treats it as normal completion) and local_core-test.py records the
    distinct EOF line; neither records a Failed outcome. -/
theorem eof_recording_behavior (deadline : Nat) (name : String)
    (stream : List (Nat × String))
    (h : ∀ p ∈ stream, p.1 ≤ deadline ∧
        pyContains p.2 "panicked" = false ∧
        pyContains p.2 "finished!" = false) :
    libcRecord name (libcWatch deadline stream) = name ++ " successed\n" ∧
    localRecord name (localWatch deadline stream) = name ++ ": EOF\n" := by
  induction stream with
  | nil => exact ⟨rfl, rfl⟩
  | cons p rest ih =>
    obtain ⟨ht, hpan, hfin⟩ := h p (List.mem_cons_self p rest)
    have hrest := ih (fun q hq => h q (List.mem_cons_of_mem p hq))
    cases p with
    | mk t line =>
      refine ⟨?_, ?_⟩
      · rw [show libcWatch deadline ((t, line) :: rest)
            = libcWatch deadline rest from by
          simp [libcWatch, Nat.not_lt.2 ht, hpan]]
        exact hrest.1
      · rw [show localWatch deadline ((t, line) :: rest)
            = localWatch deadline rest from by
          simp [localWatch, Nat.not_lt.2 ht, hfin]]
        exact hrest.2

/-- Witness for C8: a stream carrying one markerless line and then
    closing is recorded as successed and EOF respectively. -/
theorem eof_recording_behavior_witness :
    libcRecord "2 b" (libcWatch 10 [(1, "hello world")])
      = "2 b successed\n" ∧
    localRecord "2 b" (localWatch 10 [(1, "hello world")])
      = "2 b: EOF\n" :=
  eof_recording_behavior 10 "2 b" [(1, "hello world")] (by decide)

/-! ## Theorems for claim C9 (static binaries are skipped) -/

theorem libcTestsStep_noStatic (runOutcome : String → RunResult)
    (st : LibcTestsState) (rawPath : String) (h : NoStatic st) :
    NoStatic (libcTestsStep runOutcome st rawPath) := by
  intro q hq
  obtain ⟨h1, h2, h3, h4⟩ := h q hq
  rw [libcTestsStep]
  cases hs : pyEndsWith (pyDrop 9 rawPath) "-static.exe" with
  | true => exact ⟨h1, h2, h3, h4⟩
  | false =>
    have hne : q ≠ pyDrop 9 rawPath := by
      intro e
      rw [e] at hq
      rw [hq] at hs
      cases hs
    cases ho : runOutcome (pyDrop 9 rawPath) <;>
      simp_all [Finset.mem_insert, List.mem_append]

theorem libcTestsRun_noStatic (runOutcome : String → RunResult)
    (paths : List String) : NoStatic (libcTestsRun runOutcome paths) := by
  rw [libcTestsRun]
  have base : NoStatic libcTestsInit := by
    intro q hq
    refine ⟨?_, ?_, ?_, ?_⟩ <;> simp [libcTestsInit]
  generalize hst : libcTestsInit = st at base ⊢
  clear hst
  induction paths generalizing st with
  | nil => exact base
  | cons a as ih =>
    exact ih (libcTestsStep runOutcome st a)
      (libcTestsStep_noStatic runOutcome st a base)

/-- Claim C9: every enumerated test-binary path whose stripped form ends
    in -static.exe is skipped before launch: it is never handed to
    subprocess.run and belongs to none of the passed, failed, or timeout
    result sets (and hence never appears in the result report, which
    prints exactly those three sets). -/
theorem static_exe_never_launched_or_recorded
    (runOutcome : String → RunResult) (paths : List String)
    (rawPath : String) (hmem : rawPath ∈ paths)
    (hstatic : pyEndsWith (pyDrop 9 rawPath) "-static.exe" = true) :
    pyDrop 9 rawPath ∉ (libcTestsRun runOutcome paths).passed ∧
    pyDrop 9 rawPath ∉ (libcTestsRun runOutcome paths).failed ∧
    pyDrop 9 rawPath ∉ (libcTestsRun runOutcome paths).timeout ∧
    pyDrop 9 rawPath ∉ (libcTestsRun runOutcome paths).launched :=
  libcTestsRun_noStatic runOutcome paths (pyDrop 9 rawPath) hstatic

/-- Witness for C9 at a concrete enumeration containing one static and
    one dynamic binary. -/
theorem static_exe_never_launched_or_recorded_witness :
    pyDrop 9 "../rootfs/libc-test/src/a/x-static.exe" ∉
      (libcTestsRun (fun _ => RunResult.okExit)
        ["../rootfs/libc-test/src/a/x-static.exe",
         "../rootfs/libc-test/src/a/x.exe"]).passed ∧
    pyDrop 9 "../rootfs/libc-test/src/a/x-static.exe" ∉
      (libcTestsRun (fun _ => RunResult.okExit)
        ["../rootfs/libc-test/src/a/x-static.exe",
         "../rootfs/libc-test/src/a/x.exe"]).failed ∧
    pyDrop 9 "../rootfs/libc-test/src/a/x-static.exe" ∉
      (libcTestsRun (fun _ => RunResult.okExit)
        ["../rootfs/libc-test/src/a/x-static.exe",
         "../rootfs/libc-test/src/a/x.exe"]).timeout ∧
    pyDrop 9 "../rootfs/libc-test/src/a/x-static.exe" ∉
      (libcTestsRun (fun _ => RunResult.okExit)
        ["../rootfs/libc-test/src/a/x-static.exe",
         "../rootfs/libc-test/src/a/x.exe"]).launched :=
  static_exe_never_launched_or_recorded (fun _ => RunResult.okExit)
    ["../rootfs/libc-test/src/a/x-static.exe",
     "../rootfs/libc-test/src/a/x.exe"]
    "../rootfs/libc-test/src/a/x-static.exe" (by decide) (by decide)

end ZCoreHarness
